import Mathlib

/-!
Verification of the connection registry, router and session loop of the
websockets chat server (`src/main.py`, `src/auth.py`).

The `ConnectionManager` state is embedded as `WsChat.Registry`: Python dicts
become association lists with Python-dict semantics (assignment replaces the
value of an existing key in place, a new key is appended at the end of the
iteration order, `del`/`pop` removes the key).  Connection handles are opaque
`Nat` identifiers, identities and rooms are strings.  Fallible sends are
modelled by a per-call function `Handle → SendOutcome` classifying each
`send_text` as succeeding, raising `RuntimeError`, or raising another
exception, mirroring the two `except` arms of the source.
-/

namespace WsChat

section PyDict

variable {κ : Type} {α : Type} [DecidableEq κ]

/-- Python dict lookup `d.get(k)` / `d[k]`: the value stored at `k`, if any. -/
def dlookup (k : κ) : List (κ × α) → Option α
  | [] => none
  | p :: l => if p.1 = k then some p.2 else dlookup k l

/-- Python dict assignment `d[k] = v`: replaces the value of an existing key in
place (keeping its position in iteration order), otherwise appends the new
binding at the end, exactly as CPython dicts do. -/
def dinsert (k : κ) (v : α) : List (κ × α) → List (κ × α)
  | [] => [(k, v)]
  | p :: l => if p.1 = k then (k, v) :: l else p :: dinsert k v l

/-- Python dict removal `del d[k]` / `d.pop(k)`: the key disappears from the
dict. -/
def derase (k : κ) : List (κ × α) → List (κ × α)
  | [] => []
  | p :: l => if p.1 = k then derase k l else p :: derase k l

/-- Python `d.values()`. -/
def dvalues (l : List (κ × α)) : List α := l.map Prod.snd

end PyDict

/-- Opaque connection handle (spec §4.1: equality of handles is stable; a
generated `Nat` identifier stands for the `WebSocket` object used as dict
key). -/
abbrev Handle := Nat

/-- Verified identity string (`user.username`). -/
abbrev Identity := String

/-- Room name string. -/
abbrev Room := String

/-- The `ConnectionManager` state (`src/main.py` lines 15-18):
`websockets : dict[str, dict[WebSocket, str]]` maps a room to its membership
dict, and `usernames_to_websockets : dict[str, WebSocket]` maps an identity to
its current connection. -/
structure Registry where
  websockets : List (Room × List (Handle × Identity))
  usernames_to_websockets : List (Identity × Handle)
deriving DecidableEq

/-- The state of the freshly constructed `ConnectionManager`. -/
def emptyRegistry : Registry := ⟨[], []⟩

/-- `ConnectionManager.connect` (`src/main.py` lines 20-27): ensures the room
key exists, sets `websockets[room][websocket] = username` and
`usernames_to_websockets[username] = websocket`.  (The `websocket.accept()`
handshake is transport glue outside the model.) -/
def connect (s : Registry) (h : Handle) (username : Identity) (r : Room) : Registry :=
  Registry.mk
    (dinsert r (dinsert h username ((dlookup r s.websockets).getD [])) s.websockets)
    (dinsert username h s.usernames_to_websockets)

/-- `ConnectionManager.disconnect` (`src/main.py` lines 29-37): if the room
exists and contains the handle, pops the handle from the room's dict, deletes
`usernames_to_websockets[username]` whenever that key is present (the source
does not compare the stored handle with the one being removed), and deletes
the room key if the room's dict became empty. -/
def disconnect (s : Registry) (h : Handle) (r : Room) : Registry :=
  match dlookup r s.websockets with
  | none => s
  | some m =>
    match dlookup h m with
    | none => s
    | some username =>
      let m' := derase h m
      let u2w :=
        if (dlookup username s.usernames_to_websockets).isSome then
          derase username s.usernames_to_websockets
        else s.usernames_to_websockets
      let ws := if m' = [] then derase r s.websockets else dinsert r m' s.websockets
      Registry.mk ws u2w

/-- Spec §4.2 `resolve(identity)`: the lookup
`self.usernames_to_websockets.get(identity)` used for private delivery. -/
def resolve (s : Registry) (id : Identity) : Option Handle :=
  dlookup id s.usernames_to_websockets

/-- Spec §4.2 `membersOf(room)`: the room's membership dict (empty when the
room key is absent). -/
def membersOf (s : Registry) (r : Room) : List (Handle × Identity) :=
  (dlookup r s.websockets).getD []

/-- Outcome of one `websocket.send_text` call: success, `RuntimeError`, or any
other exception — the two `except` arms distinguished by the source. -/
inductive SendOutcome
  | ok
  | runtimeError
  | otherError
deriving DecidableEq

/-- Result of `ConnectionManager.broadcast` (`src/main.py` lines 67-85):
`(None, 'Указаная комната не существует')`, `(None, 'Ошибка при отправке
сообщения …')` after a failed send to some handle, or
`(True, 'Сообщение успешно отправлено')`. -/
inductive BCResult
  | roomNotFound
  | sendFailed (h : Handle)
  | ok
deriving DecidableEq

/-- Fan-out loop of `broadcast` over the point-in-time snapshot
`list(self.websockets[room].keys())`: each successful `send_text` delivers the
message; the first failure disconnects that handle and returns early, so the
remaining handles are never attempted. -/
def broadcastGo (msg : String) (r : Room) (send : Handle → SendOutcome) :
    List Handle → Registry → BCResult × Registry × List (Handle × String)
  | [], s => (BCResult.ok, s, [])
  | h :: hs, s =>
    match send h with
    | SendOutcome.ok =>
      match broadcastGo msg r send hs s with
      | (res, s', sent) => (res, s', (h, msg) :: sent)
    | _ => (BCResult.sendFailed h, disconnect s h r, [])

/-- `ConnectionManager.broadcast` (`src/main.py` lines 67-85).  Besides the
result and the updated registry it returns the list of `(handle, text)` pairs
actually delivered. -/
def broadcast (s : Registry) (msg : String) (r : Room) (send : Handle → SendOutcome) :
    BCResult × Registry × List (Handle × String) :=
  match dlookup r s.websockets with
  | none => (BCResult.roomNotFound, s, [])
  | some m => broadcastGo msg r send (m.map Prod.fst) s

/-- Result of `ConnectionManager.send_private_message` (`src/main.py` lines
39-65), one constructor per distinct `return` of the source. -/
inductive PMResult
  | roomNotFound
  | notInRoom
  | recipientMissing
  | offlineRuntime
  | sendOtherError
  | ok
deriving DecidableEq

/-- `ConnectionManager.send_private_message` (`src/main.py` lines 39-65):
fails when the room key is absent; fails when recipient or sender is not among
the room's identities (`.values()`); resolves the recipient through
`usernames_to_websockets.get`; a send failure disconnects the resolved handle
and reports the corresponding error. -/
def send_private_message (s : Registry) (msg : String) (recipient sender : Identity)
    (r : Room) (send : Handle → SendOutcome) :
    PMResult × Registry × List (Handle × String) :=
  match dlookup r s.websockets with
  | none => (PMResult.roomNotFound, s, [])
  | some m =>
    if recipient ∈ dvalues m ∧ sender ∈ dvalues m then
      match dlookup recipient s.usernames_to_websockets with
      | some w =>
        match send w with
        | SendOutcome.ok => (PMResult.ok, s, [(w, msg)])
        | SendOutcome.runtimeError => (PMResult.offlineRuntime, disconnect s w r, [])
        | SendOutcome.otherError => (PMResult.sendOtherError, disconnect s w r, [])
      | none => (PMResult.recipientMissing, s, [])
    else (PMResult.notInRoom, s, [])

/-- A registry operation: `join` (a session entering a room through
`ConnectionManager.connect`) or `leave` (`ConnectionManager.disconnect`).
Used to describe the states reachable from the empty registry. -/
inductive Op
  | join (h : Handle) (id : Identity) (r : Room)
  | leave (h : Handle) (r : Room)
deriving DecidableEq

/-- Apply one registry operation. -/
def applyOp (s : Registry) : Op → Registry
  | Op.join h id r => connect s h id r
  | Op.leave h r => disconnect s h r

/-- Apply a sequence of registry operations from left to right. -/
def applyOps (s : Registry) (ops : List Op) : Registry := ops.foldl applyOp s

/-- Spec invariant I2: every forward pointer `identityToConnection[id] = h` has
a witnessing membership `roomMembers[r][h] = id` in some room. -/
def I2 (s : Registry) : Prop :=
  ∀ id h, dlookup id s.usernames_to_websockets = some h →
    ∃ r m, dlookup r s.websockets = some m ∧ dlookup h m = some id

/-- Spec invariant I3: a room key is present only with a non-empty membership
dict. -/
def roomsNonempty (s : Registry) : Prop :=
  ∀ r m, dlookup r s.websockets = some m → m ≠ []

/-- Every `join` in the operation sequence uses the one identity attached to
its handle (a session authenticates once, so one connection never re-joins
under a different username). -/
def identConsistent (ident : Handle → Identity) (ops : List Op) : Prop :=
  ∀ h id r, Op.join h id r ∈ ops → id = ident h

/-- Strengthened induction invariant for I2 under identity-consistent
operations: every stored identity (in either map) agrees with its handle's
fixed identity, and every forward pointer has a membership witness. -/
def InvC7 (ident : Handle → Identity) (s : Registry) : Prop :=
  (∀ r m, dlookup r s.websockets = some m →
    ∀ h id, dlookup h m = some id → id = ident h) ∧
  (∀ id h, dlookup id s.usernames_to_websockets = some h → id = ident h) ∧
  I2 s

/-! ### Token expiry (`src/auth.py`) -/

/-- A `datetime.timedelta`, represented by its total number of seconds. -/
structure Timedelta where
  seconds : Int
deriving DecidableEq

/-- `timedelta(n)`: the first positional argument of `timedelta` is **days**. -/
def timedelta_days (d : Int) : Timedelta := ⟨d * 86400⟩

/-- `timedelta(minutes=n)`, for comparison with what the constant's name
suggests. -/
def timedelta_minutes (m : Int) : Timedelta := ⟨m * 60⟩

/-- `src/auth.py` line 24. -/
def ACCESS_TOKEN_EXPIRE_MINUTES : Int := 1440

/-- The `exp` claim computed by `create_token` (`src/auth.py` lines 37-46),
with the current UTC time as an integer timestamp.  `if not expires_delta:`
tests Python falsiness, which holds for `None` **and** for `timedelta(0)`;
in that case `exp = now + timedelta(ACCESS_TOKEN_EXPIRE_MINUTES)` where the
positional argument counts days.  (`jwt.encode` and the rest of the claims
dict are external to the model.) -/
def create_token_exp (now : Int) (expires_delta : Option Timedelta) : Int :=
  match expires_delta with
  | none => now + (timedelta_days ACCESS_TOKEN_EXPIRE_MINUTES).seconds
  | some d =>
    if d.seconds = 0 then now + (timedelta_days ACCESS_TOKEN_EXPIRE_MINUTES).seconds
    else now + d.seconds

/-! ### Session loop (`src/main.py` lines 112-142) -/

/-- `f'Пользователь {user.username}: {message['data']}'` (`src/main.py`
line 117): the rendered text delivered to recipients. -/
def completed_message (username data : String) : String :=
  "Пользователь " ++ username ++ ": " ++ data

/-- The result of `json.loads` on one inbound text frame: either the parse
raises `json.JSONDecodeError`, or it yields a JSON object whose fields are
strings (the envelope shape the loop subscripts). -/
inductive Payload
  | malformed
  | obj (fields : List (String × String))
deriving DecidableEq

/-- Outcome of processing one inbound text frame in the `while True` body:
the loop continues without a reply, continues after successfully sending a
structured error reply, or an exception other than `WebSocketDisconnect`
(a `RuntimeError` from the error-reply `send_text`) escapes the loop.  Each
constructor carries the updated registry and the `(handle, text)` pairs the
router delivered during the iteration. -/
inductive StepRes
  | continueOk (s : Registry) (delivered : List (Handle × String))
  | continueReplied (s : Registry) (delivered : List (Handle × String)) (reply : String)
  | crash (s : Registry) (delivered : List (Handle × String))
deriving DecidableEq

/-- `await websocket.send_text(json.dumps({'status': 'error', 'message': msg}))`
on the session's own connection: delivers the structured error reply when the
send succeeds, otherwise the exception escapes the loop (it is not a
`WebSocketDisconnect`, so nothing catches it). -/
def reply_or_crash (hS : Handle) (send : Handle → SendOutcome) (s : Registry)
    (delivered : List (Handle × String)) (msg : String) : StepRes :=
  if send hS = SendOutcome.ok then StepRes.continueReplied s delivered msg
  else StepRes.crash s delivered

/-- `f'Неверный JSON: {e}'` (`src/main.py` line 132; the exception text is not
modelled). -/
def msg_bad_json : String := "Неверный JSON: "

/-- `f'Отсутствует необходимая информация в json {e}'` (`src/main.py` line
137) where the `KeyError` argument is the missing key. -/
def msg_missing (k : String) : String :=
  "Отсутствует необходимая информация в json " ++ k

/-- Error message carried by each failing `broadcast` return. -/
def bcMessage : BCResult → String
  | BCResult.roomNotFound => "Указаная комната не существует"
  | BCResult.sendFailed _ => "Ошибка при отправке сообщения (возможно отключился) "
  | BCResult.ok => "Сообщение успешно отправлено"

/-- Error message carried by each `send_private_message` return. -/
def pmMessage : PMResult → String
  | PMResult.roomNotFound => "Указаная комната не существует"
  | PMResult.notInRoom =>
      "Отправитель и получатель должны находится в одной комнате для отправки сообщений"
  | PMResult.recipientMissing => "Сообщение не отправлено, получатель не найден или не в сети!"
  | PMResult.offlineRuntime => "Пользователь не в сети"
  | PMResult.sendOtherError => "Ошибка при отправке сообщения"
  | PMResult.ok => "Сообщение успешно отправлено"

/-- One pass of the `while True` body (`src/main.py` lines 114-138) for the
session of user `u` in room `r` on handle `hS`, applied to the parse result of
the received frame.  `message['data']` is read first (line 117, building the
rendered text), then `message['type']`; a missing key raises `KeyError`, which
is caught and answered with an error reply.  A `'broadcast'` or `'private'`
envelope is dispatched to the router, and a falsy router flag is answered with
an error reply carrying the router's message.  Any other `type` value matches
neither branch and the body simply falls through. -/
def step (u : Identity) (r : Room) (hS : Handle) (send : Handle → SendOutcome)
    (s : Registry) : Payload → StepRes
  | Payload.malformed => reply_or_crash hS send s [] msg_bad_json
  | Payload.obj fields =>
    match dlookup "data" fields with
    | none => reply_or_crash hS send s [] (msg_missing "data")
    | some d =>
      match dlookup "type" fields with
      | none => reply_or_crash hS send s [] (msg_missing "type")
      | some t =>
        if t = "broadcast" then
          match broadcast s (completed_message u d) r send with
          | (res, s', sent) =>
            if res = BCResult.ok then StepRes.continueOk s' sent
            else reply_or_crash hS send s' sent (bcMessage res)
        else if t = "private" then
          match dlookup "recipient" fields with
          | none => reply_or_crash hS send s [] (msg_missing "recipient")
          | some rec =>
            match send_private_message s (completed_message u d) rec u r send with
            | (res, s', sent) =>
              if res = PMResult.ok then StepRes.continueOk s' sent
              else reply_or_crash hS send s' sent (pmMessage res)
        else StepRes.continueOk s []

/-- What `await websocket.receive_text()` produces in one iteration: a text
frame, or the `WebSocketDisconnect` raised when the transport signals
disconnect. -/
inductive Recv
  | text (p : Payload)
  | closed
deriving DecidableEq

/-- One scheduled iteration of the session loop: the receive outcome together
with the behaviour of every `send_text` performed during the iteration. -/
structure Iter where
  recv : Recv
  send : Handle → SendOutcome

/-- How a run of the session loop ended. -/
inductive ExitKind
  | stillRunning
  | wsDisconnect
  | crashed
deriving DecidableEq

/-- Result of running the session loop on a finite schedule of iterations:
final registry, how the loop ended, how many times the
`except WebSocketDisconnect` handler (`src/main.py` line 141) called
`manager.disconnect`, and the error replies successfully sent to the session's
own connection. -/
structure LoopResult where
  registry : Registry
  exit : ExitKind
  exitLeaveCalls : Nat
  replies : List String
deriving DecidableEq

/-- The `try: while True: … except WebSocketDisconnect:` loop (`src/main.py`
lines 112-142).  A `WebSocketDisconnect` from `receive_text` is the only
exception the outer handler catches; it calls `manager.disconnect` once.  A
`crash` step (the error-reply write raising `RuntimeError`) escapes without
any `disconnect` call. -/
def runLoop (u : Identity) (r : Room) (hS : Handle) (s : Registry) :
    List Iter → LoopResult
  | [] => ⟨s, ExitKind.stillRunning, 0, []⟩
  | it :: rest =>
    match it.recv with
    | Recv.closed => ⟨disconnect s hS r, ExitKind.wsDisconnect, 1, []⟩
    | Recv.text p =>
      match step u r hS it.send s p with
      | StepRes.continueOk s' _ => runLoop u r hS s' rest
      | StepRes.continueReplied s' _ rep =>
        let res := runLoop u r hS s' rest
        ⟨res.registry, res.exit, res.exitLeaveCalls, rep :: res.replies⟩
      | StepRes.crash s' _ => ⟨s', ExitKind.crashed, 0, []⟩

/-- Spec-side description (refinement reference, following the wording of the
amended protocol-error claim) of how one loop pass reacts to a protocol-error
payload, assuming the error-reply write succeeds: malformed JSON and a missing
`data`/`type`/`recipient` field produce a structured error reply and the
session continues; an unknown `type` value is silently ignored (no reply);
well-formed `broadcast`/`private` envelopes are outside its domain (`none`). -/
def protocolErrorSpecStep (s : Registry) : Payload → Option StepRes
  | Payload.malformed => some (StepRes.continueReplied s [] msg_bad_json)
  | Payload.obj fields =>
    match dlookup "data" fields with
    | none => some (StepRes.continueReplied s [] (msg_missing "data"))
    | some _ =>
      match dlookup "type" fields with
      | none => some (StepRes.continueReplied s [] (msg_missing "type"))
      | some t =>
        if t = "broadcast" then none
        else if t = "private" then
          match dlookup "recipient" fields with
          | none => some (StepRes.continueReplied s [] (msg_missing "recipient"))
          | some _ => none
        else some (StepRes.continueOk s [])

/-- `hs.map (fun h => (h, msg))`: the delivery log of a fan-out in which every
listed handle received `msg`. -/
def sentAll (msg : String) (hs : List Handle) : List (Handle × String) :=
  hs.map (fun h => (h, msg))

/-! ### Concrete scenario data for witnesses and counterexamples -/

/-- A transport on which every `send_text` succeeds. -/
def allSendsSucceed : Handle → SendOutcome := fun _ => SendOutcome.ok

/-- A transport on which every `send_text` raises `RuntimeError` (the
exception the source itself catches around sends in `broadcast` and
`send_private_message`). -/
def allSendsRaiseRuntime : Handle → SendOutcome := fun _ => SendOutcome.runtimeError

/-- A transport on which exactly handle `1` fails with `RuntimeError`. -/
def failAtOne : Handle → SendOutcome :=
  fun h => if h = 1 then SendOutcome.runtimeError else SendOutcome.ok

/-- Registry after `connect(h0, "alice", "lobby")`. -/
def regAlice : Registry := connect emptyRegistry 0 "alice" "lobby"

/-- Registry after alice (handle 0) and bob (handle 1) joined `"lobby"`. -/
def regAliceBob : Registry :=
  connect (connect emptyRegistry 0 "alice" "lobby") 1 "bob" "lobby"

/-- Registry after alice, bob and carol joined `"lobby"` on handles 0, 1, 2. -/
def regAliceBobCarol : Registry :=
  connect (connect (connect emptyRegistry 0 "alice" "lobby") 1 "bob" "lobby") 2 "carol" "lobby"

/-- Registry after `join(h1=0, "alice", "lobby")` then `join(h2=1, "alice",
"lobby")`: the same identity joined twice from different connections. -/
def regAliceTwice : Registry :=
  connect (connect emptyRegistry 0 "alice" "lobby") 1 "alice" "lobby"

/-- Registry in which alice (handle 0) is a member of room `"r1"` while bob
(handle 1) is a member of a different room `"r2"`. -/
def regP7 : Registry :=
  connect (connect emptyRegistry 0 "alice" "r1") 1 "bob" "r2"

/-! ## Lemmas about Python-dict association lists -/

theorem dlookup_dinsert_self {κ α : Type} [DecidableEq κ] (k : κ) (v : α)
    (l : List (κ × α)) : dlookup k (dinsert k v l) = some v := by
  induction l with
  | nil => simp [dinsert, dlookup]
  | cons p l ih =>
    by_cases h : p.1 = k
    · simp [dinsert, h, dlookup]
    · simp [dinsert, h, dlookup, ih]

theorem dlookup_dinsert_ne {κ α : Type} [DecidableEq κ] (k k' : κ) (v : α)
    (l : List (κ × α)) (hne : k' ≠ k) :
    dlookup k' (dinsert k v l) = dlookup k' l := by
  induction l with
  | nil => simp [dinsert, dlookup, Ne.symm hne]
  | cons p l ih =>
    by_cases h : p.1 = k
    · simp [dinsert, h, dlookup, Ne.symm hne]
    · by_cases h' : p.1 = k'
      · simp [dinsert, h, dlookup, h', hne]
      · simp [dinsert, h, dlookup, h', ih]

theorem dlookup_derase_self {κ α : Type} [DecidableEq κ] (k : κ)
    (l : List (κ × α)) : dlookup k (derase k l) = none := by
  induction l with
  | nil => simp [derase, dlookup]
  | cons p l ih =>
    by_cases h : p.1 = k
    · simp [derase, h, ih]
    · simp [derase, h, dlookup, ih]

theorem dlookup_derase_ne {κ α : Type} [DecidableEq κ] (k k' : κ)
    (l : List (κ × α)) (hne : k' ≠ k) :
    dlookup k' (derase k l) = dlookup k' l := by
  induction l with
  | nil => simp [derase]
  | cons p l ih =>
    by_cases h : p.1 = k
    · have : p.1 ≠ k' := by rw [h]; exact Ne.symm hne
      simp [derase, h, dlookup, this, ih, Ne.symm hne]
    · by_cases h' : p.1 = k'
      · simp [derase, h, dlookup, h', hne]
      · simp [derase, h, dlookup, h', ih]

theorem dinsert_ne_nil {κ α : Type} [DecidableEq κ] (k : κ) (v : α)
    (l : List (κ × α)) : dinsert k v l ≠ [] := by
  cases l with
  | nil => simp [dinsert]
  | cons p l => by_cases h : p.1 = k <;> simp [dinsert, h]

/-- Reaping is visible immediately: after `disconnect s h r` the handle `h` is
gone from room `r`'s membership (unconditionally). -/
theorem membersOf_disconnect_self (s : Registry) (h : Handle) (r : Room) :
    dlookup h (membersOf (disconnect s h r) r) = none := by
  cases h1 : dlookup r s.websockets with
  | none => simp [disconnect, membersOf, h1, dlookup]
  | some m =>
    cases h2 : dlookup h m with
    | none => simp [disconnect, membersOf, h1, h2]
    | some u =>
      by_cases hm : derase h m = []
      · simp [disconnect, membersOf, h1, h2, hm, dlookup_derase_self, dlookup]
      · simp [disconnect, membersOf, h1, h2, hm, dlookup_dinsert_self,
          dlookup_derase_self]

/-! ## Claims C1, C6, C9, C10 -/

/-- Claim C9: `leave` is idempotent — applying `disconnect` twice with the
same handle and room equals applying it once — and `disconnect` on a handle
absent from the room's membership is a no-op, not an error. -/
theorem C9_claim (s : Registry) (h : Handle) (r : Room) :
    disconnect (disconnect s h r) h r = disconnect s h r ∧
    (dlookup h (membersOf s r) = none → disconnect s h r = s) := by
  constructor
  · cases h1 : dlookup r s.websockets with
    | none => simp [disconnect, h1]
    | some m =>
      cases h2 : dlookup h m with
      | none => simp [disconnect, h1, h2]
      | some u =>
        by_cases hm : derase h m = []
        · simp [disconnect, h1, h2, hm, dlookup_derase_self]
        · simp [disconnect, h1, h2, hm, dlookup_dinsert_self, dlookup_derase_self]
  · intro habs
    cases h1 : dlookup r s.websockets with
    | none => simp [disconnect, h1]
    | some m =>
      have h2 : dlookup h m = none := by simpa [membersOf, h1] using habs
      simp [disconnect, h1, h2]

/-- Witness for C9 on concrete data: idempotence at a present handle, and the
no-op behaviour at the absent handle `5`. -/
theorem C9_witness :
    disconnect (disconnect regAliceBob 0 "lobby") 0 "lobby"
      = disconnect regAliceBob 0 "lobby" ∧
    dlookup 5 (membersOf regAliceBob "lobby") = none ∧
    disconnect regAliceBob 5 "lobby" = regAliceBob :=
  ⟨(C9_claim regAliceBob 0 "lobby").1, by decide,
   (C9_claim regAliceBob 5 "lobby").2 (by decide)⟩

/-- Claim C10 counterexample: `create_token` with the supplied delta
`timedelta(0)` does **not** set `exp = now + 0`; Python's `if not
expires_delta:` treats the zero delta as falsy and uses the 1440-day default
instead. -/
theorem C10_counterexample :
    create_token_exp 0 (some (Timedelta.mk 0)) = 124416000 ∧
    (0 : Int) + (Timedelta.mk 0).seconds = 0 ∧
    create_token_exp 0 (some (Timedelta.mk 0)) ≠ 0 + (Timedelta.mk 0).seconds := by
  refine ⟨by decide, by decide, by decide⟩

/-- Claim C10 (amended): with `expires_delta` omitted the `exp` claim is
`now + timedelta(1440)` = now + 1440 **days** (not 1440 minutes, despite the
constant's name); a supplied **nonzero** delta gives `now + delta`; a supplied
zero delta is falsy in Python and behaves like `None`. -/
theorem C10_claim (now : Int) (d : Timedelta) (hd : d.seconds ≠ 0) :
    create_token_exp now none = now + (timedelta_days ACCESS_TOKEN_EXPIRE_MINUTES).seconds ∧
    create_token_exp now none = now + 1440 * 86400 ∧
    create_token_exp now none ≠ now + (timedelta_minutes ACCESS_TOKEN_EXPIRE_MINUTES).seconds ∧
    create_token_exp now (some d) = now + d.seconds ∧
    create_token_exp now (some (Timedelta.mk 0)) = now + 1440 * 86400 := by
  refine ⟨rfl, by norm_num [create_token_exp, timedelta_days, ACCESS_TOKEN_EXPIRE_MINUTES], ?_,
    by simp [create_token_exp, hd], by norm_num [create_token_exp, timedelta_days,
      ACCESS_TOKEN_EXPIRE_MINUTES]⟩
  simp only [create_token_exp, timedelta_days, timedelta_minutes, ACCESS_TOKEN_EXPIRE_MINUTES]
  omega

/-- Witness for C10 at `now = 5` and the nonzero delta of 60 seconds. -/
theorem C10_witness :
    (Timedelta.mk 60).seconds ≠ 0 ∧
    (create_token_exp 5 none = 5 + (timedelta_days ACCESS_TOKEN_EXPIRE_MINUTES).seconds ∧
     create_token_exp 5 none = 5 + 1440 * 86400 ∧
     create_token_exp 5 none ≠ 5 + (timedelta_minutes ACCESS_TOKEN_EXPIRE_MINUTES).seconds ∧
     create_token_exp 5 (some (Timedelta.mk 60)) = 5 + (Timedelta.mk 60).seconds ∧
     create_token_exp 5 (some (Timedelta.mk 0)) = 5 + 1440 * 86400) :=
  ⟨by decide, C10_claim 5 (Timedelta.mk 60) (by decide)⟩

/-- Claim C1 counterexample: after `join(h1=0, "alice", "lobby")` and
`join(h2=1, "alice", "lobby")`, `resolve("alice") = h2` holds, but the
subsequent `leave(h1, "lobby")` deletes the mapping entirely —
`resolve("alice")` becomes absent instead of remaining `h2`, because
`disconnect` deletes `usernames_to_websockets[username]` without comparing
the stored handle to the one being removed. -/
theorem C1_counterexample :
    resolve regAliceTwice "alice" = some 1 ∧
    resolve (disconnect regAliceTwice 0 "lobby") "alice" = none ∧
    (none : Option Handle) ≠ some 1 :=
  ⟨rfl, by decide, by decide⟩

/-- Claim C1 (amended): `join` is last-writer-wins on the identity map, but
`leave(h, r)` removes the `identityToConnection` entry of the identity popped
from the room whenever any entry for that identity exists, even when it points
at a different (newer) handle; afterwards `resolve` of that identity is
absent. -/
theorem C1_claim (s : Registry) (h h2 : Handle) (r : Room)
    (m : List (Handle × Identity)) (id : Identity)
    (hm : dlookup r s.websockets = some m) (hh : dlookup h m = some id) :
    resolve (connect s h2 id r) id = some h2 ∧
    resolve (disconnect s h r) id = none := by
  constructor
  · simp [resolve, connect, dlookup_dinsert_self]
  · cases hu : dlookup id s.usernames_to_websockets with
    | none => simp [resolve, disconnect, hm, hh, hu]
    | some w => simp [resolve, disconnect, hm, hh, hu, dlookup_derase_self]

/-- Witness for C1 on the two-joins-one-leave scenario, with `h2 = 7` as the
newer connection in the `join` part. -/
theorem C1_witness :
    dlookup "lobby" regAliceTwice.websockets = some [(0, "alice"), (1, "alice")] ∧
    dlookup 0 [((0 : Handle), ("alice" : Identity)), (1, "alice")] = some "alice" ∧
    (resolve (connect regAliceTwice 7 "alice" "lobby") "alice" = some 7 ∧
     resolve (disconnect regAliceTwice 0 "lobby") "alice" = none) :=
  ⟨by decide, by decide,
   C1_claim regAliceTwice 0 7 "lobby" [(0, "alice"), (1, "alice")] "alice"
     (by decide) (by decide)⟩

/-- Claim C6 counterexample: when the room itself is absent, the sender is not
a member of it, yet `send_private_message` returns the room-not-found failure,
not the co-membership (`NotInRoom`) failure the claim requires for every
non-membership situation. -/
theorem C6_counterexample :
    dlookup "r" emptyRegistry.websockets = none ∧
    ("alice" : Identity) ∉ dvalues ((dlookup "r" emptyRegistry.websockets).getD []) ∧
    send_private_message emptyRegistry "m" "bob" "alice" "r" allSendsSucceed
      = (PMResult.roomNotFound, emptyRegistry, []) ∧
    PMResult.roomNotFound ≠ PMResult.notInRoom :=
  ⟨rfl, by decide, rfl, by decide⟩

/-- Claim C6 (amended): when the room exists and either the sender or the
recipient is not among its member identities, `send_private_message` returns
the `NotInRoom` failure without sending anything and without changing the
registry — in particular even when `resolve(recipient)` succeeds because the
recipient belongs to a different room; when the room key is absent the call
fails with `RoomNotFound`, likewise without sending. -/
theorem C6_claim (s1 s2 : Registry) (msg : String) (rec sndr : Identity)
    (r : Room) (send : Handle → SendOutcome) (m : List (Handle × Identity))
    (hm : dlookup r s1.websockets = some m)
    (hnm : rec ∉ dvalues m ∨ sndr ∉ dvalues m)
    (hno : dlookup r s2.websockets = none) :
    send_private_message s1 msg rec sndr r send = (PMResult.notInRoom, s1, []) ∧
    send_private_message s2 msg rec sndr r send = (PMResult.roomNotFound, s2, []) := by
  constructor
  · have hboth : ¬ (rec ∈ dvalues m ∧ sndr ∈ dvalues m) := by tauto
    simp [send_private_message, hm, hboth]
  · simp [send_private_message, hno]

/-- Witness for C6: the P7 scenario — bob is a member of room `"r2"`, so
`resolve("bob")` succeeds, yet a private send in room `"r1"` fails with
`NotInRoom`; and the room-absent case on the empty registry. -/
theorem C6_witness :
    dlookup "r1" regP7.websockets = some [(0, "alice")] ∧
    ("bob" : Identity) ∉ dvalues [((0 : Handle), ("alice" : Identity))] ∧
    resolve regP7 "bob" = some 1 ∧
    dlookup "r1" emptyRegistry.websockets = none ∧
    (send_private_message regP7 "m" "bob" "alice" "r1" allSendsSucceed
       = (PMResult.notInRoom, regP7, []) ∧
     send_private_message emptyRegistry "m" "bob" "alice" "r1" allSendsSucceed
       = (PMResult.roomNotFound, emptyRegistry, [])) :=
  ⟨by decide, by decide, by decide, by decide,
   C6_claim regP7 emptyRegistry "m" "bob" "alice" "r1" allSendsSucceed
     [(0, "alice")] (by decide) (Or.inl (by decide)) (by decide)⟩

/-! ## Broadcast fan-out lemmas and claims C2, C4 -/

/-- When every send in the snapshot succeeds, the fan-out delivers the message
to every listed handle in order and leaves the registry untouched. -/
theorem broadcastGo_all_ok (msg : String) (r : Room) (send : Handle → SendOutcome)
    (hs : List Handle) (s : Registry) (hall : ∀ h ∈ hs, send h = SendOutcome.ok) :
    broadcastGo msg r send hs s = (BCResult.ok, s, sentAll msg hs) := by
  induction hs with
  | nil => simp [broadcastGo, sentAll]
  | cons h hs ih =>
    have hh : send h = SendOutcome.ok := hall h (List.mem_cons_self h hs)
    have ih' := ih (fun h' hm => hall h' (List.mem_cons_of_mem _ hm))
    simp [broadcastGo, hh, ih', sentAll]

/-- When the first failing handle in the snapshot is `hfail`, the fan-out
delivers only to the preceding handles, disconnects `hfail`, and returns the
failure immediately — the handles after `hfail` are never attempted. -/
theorem broadcastGo_fail (msg : String) (r : Room) (send : Handle → SendOutcome)
    (pre : List Handle) (hfail : Handle) (post : List Handle) (s : Registry)
    (hpre : ∀ h ∈ pre, send h = SendOutcome.ok)
    (hf : send hfail ≠ SendOutcome.ok) :
    broadcastGo msg r send (pre ++ hfail :: post) s
      = (BCResult.sendFailed hfail, disconnect s hfail r, sentAll msg pre) := by
  induction pre with
  | nil =>
    cases hsf : send hfail with
    | ok => exact absurd hsf hf
    | runtimeError => simp [broadcastGo, hsf, sentAll]
    | otherError => simp [broadcastGo, hsf, sentAll]
  | cons a pre ih =>
    have ha : send a = SendOutcome.ok := hpre a (List.mem_cons_self a pre)
    have ih' := ih (fun h' hm => hpre h' (List.mem_cons_of_mem _ hm))
    simp [broadcastGo, ha, ih', sentAll]

/-- Claim C2 counterexample: with alice (handle 0) and bob (handle 1) in
`"lobby"`, alice's `{"type":"broadcast","data":"hi"}` delivers the text
`"Пользователь alice: hi"` to both members — not the claimed plain line
`"alice: hi"` (the session loop prefixes `'Пользователь '`). -/
theorem C2_counterexample :
    step "alice" "lobby" 0 allSendsSucceed regAliceBob
        (Payload.obj [("type", "broadcast"), ("data", "hi")])
      = StepRes.continueOk regAliceBob
          [(0, "Пользователь alice: hi"), (1, "Пользователь alice: hi")] ∧
    ("Пользователь alice: hi" : String) ≠ "alice: hi" :=
  ⟨by decide, by decide⟩

/-- Claim C2 (amended): a broadcast envelope `{"type":"broadcast","data":d}`
from the authenticated user `u`, when every member's send succeeds, delivers
exactly the rendered line `"Пользователь <u>: <d>"` (and nothing else) to
every member handle of the room — the sender's own handle included, since it
is in the membership snapshot. -/
theorem C2_claim (u : Identity) (d : String) (r : Room) (hS : Handle)
    (send : Handle → SendOutcome) (s : Registry)
    (fields : List (String × String)) (m : List (Handle × Identity))
    (hd : dlookup "data" fields = some d)
    (ht : dlookup "type" fields = some "broadcast")
    (hm : dlookup r s.websockets = some m)
    (hall : ∀ h ∈ m.map Prod.fst, send h = SendOutcome.ok) :
    step u r hS send s (Payload.obj fields)
      = StepRes.continueOk s (sentAll (completed_message u d) (m.map Prod.fst)) := by
  simp [step, hd, ht, broadcast, hm,
    broadcastGo_all_ok (completed_message u d) r send (m.map Prod.fst) s hall]

/-- Witness for C2 on the alice/bob scenario. -/
theorem C2_witness :
    dlookup "data" [("type", "broadcast"), ("data", "hi")] = some "hi" ∧
    dlookup "type" [("type", "broadcast"), ("data", "hi")] = some "broadcast" ∧
    dlookup "lobby" regAliceBob.websockets = some [(0, "alice"), (1, "bob")] ∧
    allSendsSucceed 0 = SendOutcome.ok ∧
    step "alice" "lobby" 0 allSendsSucceed regAliceBob
        (Payload.obj [("type", "broadcast"), ("data", "hi")])
      = StepRes.continueOk regAliceBob
          (sentAll (completed_message "alice" "hi")
            ([((0 : Handle), ("alice" : Identity)), (1, "bob")].map Prod.fst)) :=
  ⟨by decide, by decide, by decide, rfl,
   C2_claim "alice" "hi" "lobby" 0 allSendsSucceed regAliceBob
     [("type", "broadcast"), ("data", "hi")] [(0, "alice"), (1, "bob")]
     (by decide) (by decide) (by decide) (by decide)⟩

/-- Claim C4: over the snapshot `pre ++ hfail :: post` of room `r`, if every
send in `pre` succeeds and the send to `hfail` fails, then `broadcast`
delivers only to `pre`, removes `hfail` from the room's membership via
`disconnect`, does not attempt `post`, and returns the failure outcome (so
the success outcome is returned only when every member's send succeeded). -/
theorem C4_claim (s : Registry) (msg : String) (r : Room)
    (send : Handle → SendOutcome) (m : List (Handle × Identity))
    (pre post : List Handle) (hfail : Handle)
    (hm : dlookup r s.websockets = some m)
    (hsplit : m.map Prod.fst = pre ++ hfail :: post)
    (hpre : ∀ h ∈ pre, send h = SendOutcome.ok)
    (hf : send hfail ≠ SendOutcome.ok) :
    broadcast s msg r send
      = (BCResult.sendFailed hfail, disconnect s hfail r, sentAll msg pre) ∧
    dlookup hfail (membersOf (disconnect s hfail r) r) = none := by
  refine ⟨?_, membersOf_disconnect_self s hfail r⟩
  simp [broadcast, hm, hsplit,
    broadcastGo_fail msg r send pre hfail post s hpre hf]

/-- Witness for C4: members alice, bob, carol on handles 0, 1, 2; the send to
bob (handle 1) raises, so only alice receives the text, carol is never
attempted, and bob is gone from the membership afterwards. -/
theorem C4_witness :
    dlookup "lobby" regAliceBobCarol.websockets
      = some [(0, "alice"), (1, "bob"), (2, "carol")] ∧
    failAtOne 0 = SendOutcome.ok ∧
    failAtOne 1 ≠ SendOutcome.ok ∧
    (broadcast regAliceBobCarol "hi" "lobby" failAtOne
       = (BCResult.sendFailed 1, disconnect regAliceBobCarol 1 "lobby",
          sentAll "hi" [0]) ∧
     dlookup 1 (membersOf (disconnect regAliceBobCarol 1 "lobby") "lobby") = none) :=
  ⟨by decide, rfl, by decide,
   C4_claim regAliceBobCarol "hi" "lobby" failAtOne
     [(0, "alice"), (1, "bob"), (2, "carol")] [0] [2] 1
     (by decide) (by decide) (by decide) (by decide)⟩

/-! ## Room non-emptiness (claim C8) -/

/-- `connect` preserves invariant I3. -/
theorem roomsNonempty_connect (s : Registry) (h : Handle) (id : Identity)
    (r : Room) (hs : roomsNonempty s) : roomsNonempty (connect s h id r) := by
  intro r' m' hm'
  simp only [connect] at hm'
  by_cases hr : r' = r
  · subst hr
    rw [dlookup_dinsert_self] at hm'
    rw [← Option.some.inj hm']
    exact dinsert_ne_nil _ _ _
  · rw [dlookup_dinsert_ne r r' _ _ hr] at hm'
    exact hs r' m' hm'

/-- `disconnect` preserves invariant I3: a room emptied by the removal is
deleted in the same operation. -/
theorem roomsNonempty_disconnect (s : Registry) (h : Handle) (r : Room)
    (hs : roomsNonempty s) : roomsNonempty (disconnect s h r) := by
  cases h1 : dlookup r s.websockets with
  | none => simpa [disconnect, h1] using hs
  | some m =>
    cases h2 : dlookup h m with
    | none => simpa [disconnect, h1, h2] using hs
    | some u =>
      intro r' m' hm'
      by_cases hm0 : derase h m = []
      · simp only [disconnect, h1, h2, hm0, if_pos, if_true] at hm'
        by_cases hr : r' = r
        · subst hr
          rw [dlookup_derase_self] at hm'
          cases hm'
        · rw [dlookup_derase_ne r r' _ hr] at hm'
          exact hs r' m' hm'
      · simp only [disconnect, h1, h2, hm0, if_false] at hm'
        by_cases hr : r' = r
        · subst hr
          rw [dlookup_dinsert_self] at hm'
          rw [← Option.some.inj hm']
          exact hm0
        · rw [dlookup_dinsert_ne r r' _ _ hr] at hm'
          exact hs r' m' hm'

/-- Invariant I3 holds in every state reachable from the empty registry. -/
theorem roomsNonempty_applyOps (ops : List Op) :
    ∀ s : Registry, roomsNonempty s → roomsNonempty (applyOps s ops) := by
  induction ops with
  | nil => intro s hs; simpa [applyOps] using hs
  | cons op ops ih =>
    intro s hs
    have h1 : roomsNonempty (applyOp s op) := by
      cases op with
      | join h id r => exact roomsNonempty_connect s h id r hs
      | leave h r => exact roomsNonempty_disconnect s h r hs
    simpa [applyOps, List.foldl_cons] using ih (applyOp s op) h1

/-- Claim C8: in every state reachable by join/leave sequences from the empty
registry, a room key is present only with non-empty membership; removing the
last member of a room deletes the room key in the same `disconnect`; and a
`connect` into an absent room creates it with exactly the joining pair as its
sole member. -/
theorem C8_claim (ops : List Op) (s1 s2 : Registry) (h : Handle)
    (id : Identity) (r : Room)
    (hb : dlookup r s1.websockets = some [(h, id)])
    (hc : dlookup r s2.websockets = none) :
    roomsNonempty (applyOps emptyRegistry ops) ∧
    dlookup r (disconnect s1 h r).websockets = none ∧
    dlookup r (connect s2 h id r).websockets = some [(h, id)] := by
  refine ⟨?_, ?_, ?_⟩
  · refine roomsNonempty_applyOps ops emptyRegistry ?_
    intro r' m' hm'
    simp [emptyRegistry, dlookup] at hm'
  · have h2 : dlookup h [(h, id)] = some id := by simp [dlookup]
    have hder : derase h [(h, id)] = [] := by simp [derase]
    simp [disconnect, hb, h2, hder, dlookup_derase_self]
  · simp [connect, hc, dinsert, dlookup_dinsert_self]

/-- Witness for C8: the single-member room `"lobby"` of `regAlice` disappears
when alice leaves, and joining the empty registry recreates it from empty. -/
theorem C8_witness :
    dlookup "lobby" regAlice.websockets = some [(0, "alice")] ∧
    dlookup "lobby" emptyRegistry.websockets = none ∧
    (roomsNonempty (applyOps emptyRegistry [Op.join 0 "alice" "lobby", Op.leave 0 "lobby"]) ∧
     dlookup "lobby" (disconnect regAlice 0 "lobby").websockets = none ∧
     dlookup "lobby" (connect emptyRegistry 0 "alice" "lobby").websockets
       = some [(0, "alice")]) :=
  ⟨by decide, rfl,
   C8_claim [Op.join 0 "alice" "lobby", Op.leave 0 "lobby"] regAlice
     emptyRegistry 0 "alice" "lobby" (by decide) rfl⟩

/-! ## Invariant I2 (claim C7) -/

theorem dlookup_derase_eq_some {κ α : Type} [DecidableEq κ] (k k₀ : κ)
    (l : List (κ × α)) (v : α) (hl : dlookup k (derase k₀ l) = some v) :
    k ≠ k₀ ∧ dlookup k l = some v := by
  by_cases h : k = k₀
  · subst h; rw [dlookup_derase_self] at hl; cases hl
  · exact ⟨h, by rwa [dlookup_derase_ne k₀ k l h] at hl⟩

theorem dlookup_dinsert_eq_some {κ α : Type} [DecidableEq κ] (k k₀ : κ)
    (v₀ : α) (l : List (κ × α)) (v : α)
    (hl : dlookup k (dinsert k₀ v₀ l) = some v) :
    (k = k₀ ∧ v = v₀) ∨ (k ≠ k₀ ∧ dlookup k l = some v) := by
  by_cases h : k = k₀
  · subst h; rw [dlookup_dinsert_self] at hl
    exact Or.inl ⟨rfl, (Option.some.inj hl).symm⟩
  · exact Or.inr ⟨h, by rwa [dlookup_dinsert_ne k₀ k v₀ l h] at hl⟩

/-- `connect` with the handle's fixed identity preserves the strengthened I2
invariant. -/
theorem InvC7_connect (ident : Handle → Identity) (s : Registry) (h : Handle)
    (r : Room) (hs : InvC7 ident s) : InvC7 ident (connect s h (ident h) r) := by
  obtain ⟨hA1, hA2, hI2⟩ := hs
  refine ⟨?_, ?_, ?_⟩
  · intro r' m' hm' h' id' hid'
    simp only [connect] at hm'
    rcases dlookup_dinsert_eq_some r' r _ _ m' hm' with ⟨hre, hmm⟩ | ⟨hne, hm''⟩
    · subst hre
      rw [hmm] at hid'
      rcases dlookup_dinsert_eq_some h' h _ _ id' hid' with ⟨hhe, hie⟩ | ⟨hhe, hid''⟩
      · rw [hie, hhe]
      · cases hws : dlookup r' s.websockets with
        | none => rw [hws] at hid''; simp [dlookup] at hid''
        | some m0 =>
          rw [hws] at hid''
          exact hA1 r' m0 hws h' id' hid''
    · exact hA1 r' m' hm'' h' id' hid'
  · intro id' h' hl
    simp only [connect] at hl
    rcases dlookup_dinsert_eq_some id' (ident h) h _ h' hl with ⟨hie, hhe⟩ | ⟨hie, hl'⟩
    · rw [hie, hhe]
    · exact hA2 id' h' hl'
  · intro id' h' hl
    simp only [connect] at hl
    rcases dlookup_dinsert_eq_some id' (ident h) h _ h' hl with ⟨hie, hhe⟩ | ⟨hie, hl'⟩
    · subst hie
      rw [hhe]
      refine ⟨r, dinsert h (ident h) ((dlookup r s.websockets).getD []), ?_, ?_⟩
      · simp only [connect]
        exact dlookup_dinsert_self _ _ _
      · exact dlookup_dinsert_self _ _ _
    · obtain ⟨r1, m1, hr1, hm1⟩ := hI2 id' h' hl'
      by_cases hr : r1 = r
      · subst hr
        by_cases hh : h' = h
        · exfalso
          apply hie
          rw [hA2 id' h' hl', hh]
        · refine ⟨r1, dinsert h (ident h) ((dlookup r1 s.websockets).getD []), ?_, ?_⟩
          · simp only [connect]
            exact dlookup_dinsert_self _ _ _
          · rw [dlookup_dinsert_ne h h' _ _ hh, hr1]
            simpa using hm1
      · refine ⟨r1, m1, ?_, hm1⟩
        simp only [connect]
        rw [dlookup_dinsert_ne r r1 _ _ hr]
        exact hr1

/-- `disconnect` preserves the strengthened I2 invariant. -/
theorem InvC7_disconnect (ident : Handle → Identity) (s : Registry) (h : Handle)
    (r : Room) (hs : InvC7 ident s) : InvC7 ident (disconnect s h r) := by
  obtain ⟨hA1, hA2, hI2⟩ := hs
  cases h1 : dlookup r s.websockets with
  | none => rw [show disconnect s h r = s by simp [disconnect, h1]]; exact ⟨hA1, hA2, hI2⟩
  | some m =>
  cases h2 : dlookup h m with
  | none => rw [show disconnect s h r = s by simp [disconnect, h1, h2]]; exact ⟨hA1, hA2, hI2⟩
  | some u =>
  have hu : u = ident h := hA1 r m h1 h u h2
  have hws : (disconnect s h r).websockets
      = (if derase h m = [] then derase r s.websockets
         else dinsert r (derase h m) s.websockets) := by
    simp [disconnect, h1, h2]
  have hu2w : (disconnect s h r).usernames_to_websockets
      = (if (dlookup u s.usernames_to_websockets).isSome then
           derase u s.usernames_to_websockets
         else s.usernames_to_websockets) := by
    simp [disconnect, h1, h2]
  refine ⟨?_, ?_, ?_⟩
  · intro r' m' hm' h' id' hid'
    rw [hws] at hm'
    by_cases hm0 : derase h m = []
    · rw [if_pos hm0] at hm'
      obtain ⟨hne, hm''⟩ := dlookup_derase_eq_some r' r _ m' hm'
      exact hA1 r' m' hm'' h' id' hid'
    · rw [if_neg hm0] at hm'
      rcases dlookup_dinsert_eq_some r' r _ _ m' hm' with ⟨hre, hmm⟩ | ⟨hne, hm''⟩
      · subst hre
        rw [hmm] at hid'
        obtain ⟨hne', hid''⟩ := dlookup_derase_eq_some h' h m id' hid'
        exact hA1 r' m h1 h' id' hid''
      · exact hA1 r' m' hm'' h' id' hid'
  · intro id' h' hl
    rw [hu2w] at hl
    by_cases hi : (dlookup u s.usernames_to_websockets).isSome
    · rw [if_pos hi] at hl
      obtain ⟨hne, hl'⟩ := dlookup_derase_eq_some id' u _ h' hl
      exact hA2 id' h' hl'
    · rw [if_neg hi] at hl
      exact hA2 id' h' hl
  · intro id' h' hl
    rw [hu2w] at hl
    have hl' : id' ≠ u ∧ dlookup id' s.usernames_to_websockets = some h' := by
      by_cases hi : (dlookup u s.usernames_to_websockets).isSome
      · rw [if_pos hi] at hl
        exact dlookup_derase_eq_some id' u _ h' hl
      · rw [if_neg hi] at hl
        refine ⟨?_, hl⟩
        intro hiu
        rw [hiu] at hl
        rw [hl] at hi
        simp at hi
    obtain ⟨hneu, hlu⟩ := hl'
    have hne_h : h' ≠ h := by
      intro hhe
      apply hneu
      rw [hA2 id' h' hlu, hhe, ← hu]
    obtain ⟨r1, m1, hr1, hm1⟩ := hI2 id' h' hlu
    rw [hws]
    by_cases hr : r1 = r
    · subst hr
      have hm1m : m1 = m := Option.some.inj (hr1.symm.trans h1)
      rw [hm1m] at hm1
      have hmem' : dlookup h' (derase h m) = some id' := by
        rw [dlookup_derase_ne h h' m hne_h]
        exact hm1
      have hnn : derase h m ≠ [] := by
        intro hc
        rw [hc] at hmem'
        cases hmem'
      rw [if_neg hnn]
      exact ⟨r1, derase h m, dlookup_dinsert_self _ _ _, hmem'⟩
    · by_cases hm0 : derase h m = []
      · rw [if_pos hm0]
        refine ⟨r1, m1, ?_, hm1⟩
        rw [dlookup_derase_ne r r1 _ hr]
        exact hr1
      · rw [if_neg hm0]
        refine ⟨r1, m1, ?_, hm1⟩
        rw [dlookup_dinsert_ne r r1 _ _ hr]
        exact hr1

/-- The strengthened invariant holds along every identity-consistent
operation sequence. -/
theorem InvC7_applyOps (ident : Handle → Identity) (ops : List Op) :
    ∀ s : Registry, InvC7 ident s → identConsistent ident ops →
      InvC7 ident (applyOps s ops) := by
  induction ops with
  | nil => intro s hs _; simpa [applyOps] using hs
  | cons op ops ih =>
    intro s hs hc
    have hstep : InvC7 ident (applyOp s op) := by
      cases op with
      | join h id r =>
        have hid : id = ident h := hc h id r (List.mem_cons_self _ _)
        subst hid
        exact InvC7_connect ident s h r hs
      | leave h r => exact InvC7_disconnect ident s h r hs
    have hc' : identConsistent ident ops :=
      fun h id r hm => hc h id r (List.mem_cons_of_mem _ hm)
    simpa [applyOps, List.foldl_cons] using ih (applyOp s op) hstep hc'

/-- Claim C7 counterexample: the sequence `join(h=0,"alice","lobby")` then
`join(h=0,"bob","lobby")` (the same handle re-joined under another identity)
reaches a state where `identityToConnection["alice"] = 0` yet no room maps
handle `0` to `"alice"` — invariant I2 fails for arbitrary join/leave
sequences. -/
theorem C7_counterexample :
    ¬ I2 (applyOps emptyRegistry
      [Op.join 0 "alice" "lobby", Op.join 0 "bob" "lobby"]) := by
  intro hI2
  obtain ⟨r, m, hr, hm⟩ := hI2 "alice" 0 (by decide)
  have hws : (applyOps emptyRegistry
      [Op.join 0 "alice" "lobby", Op.join 0 "bob" "lobby"]).websockets
      = [("lobby", [(0, "bob")])] := by decide
  rw [hws] at hr
  simp only [dlookup] at hr
  by_cases hlr : ("lobby" : Room) = r
  · rw [if_pos hlr] at hr
    rw [← Option.some.inj hr] at hm
    exact absurd hm (by decide)
  · rw [if_neg hlr] at hr
    cases hr

/-- Claim C7 (amended): invariant I2 — every `identityToConnection[id] = h`
has a room `r` with `roomMembers[r][h] = id` — holds in every state reachable
from the empty registry by join/leave sequences in which each handle always
joins under one fixed identity (as real sessions do: a connection
authenticates once and joins once). -/
theorem C7_claim (ident : Handle → Identity) (ops : List Op)
    (hc : identConsistent ident ops) : I2 (applyOps emptyRegistry ops) := by
  have base : InvC7 ident emptyRegistry := by
    refine ⟨?_, ?_, ?_⟩
    · intro r m hm
      simp [emptyRegistry, dlookup] at hm
    · intro id h hl
      simp [emptyRegistry, dlookup] at hl
    · intro id h hl
      simp [emptyRegistry, dlookup] at hl
  exact (InvC7_applyOps ident ops emptyRegistry base hc).2.2

/-- Witness for C7 on the singleton consistent sequence joining alice. -/
theorem C7_witness : I2 (applyOps emptyRegistry [Op.join 0 "alice" "lobby"]) :=
  C7_claim (fun _ => "alice") [Op.join 0 "alice" "lobby"] (by
    intro h id r hm
    simp only [List.mem_singleton, Op.join.injEq] at hm
    exact hm.2.1)

/-! ## Session-loop claims C3 and C5 -/

/-- Claim C3 counterexample: alice's active session receives a malformed
frame, and the error-reply write raises `RuntimeError` (the exception the
source expects from failed sends); `RuntimeError` is not
`WebSocketDisconnect`, so it escapes the loop — the session ends with zero
`leave` calls, and alice's registration is left dangling in the room. -/
theorem C3_counterexample :
    (runLoop "alice" "lobby" 0 regAlice
        [Iter.mk (Recv.text Payload.malformed) allSendsRaiseRuntime]).exit
      = ExitKind.crashed ∧
    (runLoop "alice" "lobby" 0 regAlice
        [Iter.mk (Recv.text Payload.malformed) allSendsRaiseRuntime]).exitLeaveCalls
      = 0 ∧
    dlookup 0 (membersOf (runLoop "alice" "lobby" 0 regAlice
        [Iter.mk (Recv.text Payload.malformed) allSendsRaiseRuntime]).registry
      "lobby") = some "alice" :=
  ⟨by decide, by decide, by decide⟩

/-- Claim C3 (amended): the session loop's exception handler calls
`Registry.leave` exactly once when the session terminates through
`WebSocketDisconnect` raised by the transport (voluntary close or network
failure surfacing on receive); when the session's own outbound error-reply
write fails, the `RuntimeError` escapes the `except WebSocketDisconnect`
handler and the session terminates with **no** leave call from the exit
path. -/
theorem C3_claim (u : Identity) (r : Room) (hS : Handle) (s : Registry)
    (trace : List Iter) :
    ((runLoop u r hS s trace).exit = ExitKind.wsDisconnect →
      (runLoop u r hS s trace).exitLeaveCalls = 1) ∧
    ((runLoop u r hS s trace).exit = ExitKind.crashed →
      (runLoop u r hS s trace).exitLeaveCalls = 0) := by
  induction trace generalizing s with
  | nil => simp [runLoop]
  | cons it rest ih =>
    cases it with
    | mk recv send =>
      cases recv with
      | closed => simp [runLoop]
      | text p =>
        cases hstep : step u r hS send s p with
        | continueOk s' d => simpa [runLoop, hstep] using ih s'
        | continueReplied s' d rep => simpa [runLoop, hstep] using ih s'
        | crash s' d => simp [runLoop, hstep]

/-- Witness for C3: a session terminated by the transport disconnect signal
performs exactly one exit-path leave. -/
theorem C3_witness :
    (runLoop "alice" "lobby" 0 regAlice [Iter.mk Recv.closed allSendsSucceed]).exit
      = ExitKind.wsDisconnect ∧
    (runLoop "alice" "lobby" 0 regAlice
        [Iter.mk Recv.closed allSendsSucceed]).exitLeaveCalls = 1 :=
  ⟨by decide,
   (C3_claim "alice" "lobby" 0 regAlice
     [Iter.mk Recv.closed allSendsSucceed]).1 (by decide)⟩

/-- Claim C5 counterexample: an envelope with an unknown `type` value (here
`"x"`, with `data` present) matches neither the `'broadcast'` nor the
`'private'` branch and falls through silently — the session continues but
**no** structured error reply is sent (the step result is `continueOk` with
no delivery, not `continueReplied`). -/
theorem C5_counterexample :
    step "alice" "lobby" 0 allSendsSucceed emptyRegistry
        (Payload.obj [("type", "x"), ("data", "y")])
      = StepRes.continueOk emptyRegistry [] := by decide

/-- Claim C5 (amended): on an active session whose error-reply writes succeed,
malformed JSON and envelopes missing `data`, missing `type`, or missing
`recipient` for a private message each produce a structured error reply to the
same connection and the session stays active (the loop proceeds to the next
iteration with an unchanged registry); an envelope with an unknown `type`
value is silently ignored — the session also stays active but no error reply
is sent; none of these inputs closes the connection. -/
theorem C5_claim (u : Identity) (r : Room) (hS : Handle)
    (send : Handle → SendOutcome) (s : Registry) (p : Payload) (res : StepRes)
    (rest : List Iter) (hok : send hS = SendOutcome.ok)
    (hspec : protocolErrorSpecStep s p = some res) :
    step u r hS send s p = res ∧
    (runLoop u r hS s (Iter.mk (Recv.text p) send :: rest)).exit
      = (runLoop u r hS s rest).exit := by
  cases p with
  | malformed =>
    have hres : res = StepRes.continueReplied s [] msg_bad_json := by
      simpa [protocolErrorSpecStep] using hspec.symm
    subst hres
    refine ⟨by simp [step, reply_or_crash, hok], ?_⟩
    simp [runLoop, step, reply_or_crash, hok]
  | obj fields =>
    cases hdata : dlookup "data" fields with
    | none =>
      have hres : res = StepRes.continueReplied s [] (msg_missing "data") := by
        simpa [protocolErrorSpecStep, hdata] using hspec.symm
      subst hres
      refine ⟨by simp [step, hdata, reply_or_crash, hok], ?_⟩
      simp [runLoop, step, hdata, reply_or_crash, hok]
    | some d =>
      cases htype : dlookup "type" fields with
      | none =>
        have hres : res = StepRes.continueReplied s [] (msg_missing "type") := by
          simpa [protocolErrorSpecStep, hdata, htype] using hspec.symm
        subst hres
        refine ⟨by simp [step, hdata, htype, reply_or_crash, hok], ?_⟩
        simp [runLoop, step, hdata, htype, reply_or_crash, hok]
      | some t =>
        by_cases hb : t = "broadcast"
        · exfalso
          simp [protocolErrorSpecStep, hdata, htype, hb] at hspec
        · by_cases hp : t = "private"
          · cases hrec : dlookup "recipient" fields with
            | none =>
              have hres : res = StepRes.continueReplied s [] (msg_missing "recipient") := by
                simpa [protocolErrorSpecStep, hdata, htype, hb, hp, hrec] using hspec.symm
              subst hres
              refine ⟨by simp [step, hdata, htype, hb, hp, hrec, reply_or_crash, hok], ?_⟩
              simp [runLoop, step, hdata, htype, hb, hp, hrec, reply_or_crash, hok]
            | some rc =>
              exfalso
              simp [protocolErrorSpecStep, hdata, htype, hb, hp, hrec] at hspec
          · have hres : res = StepRes.continueOk s [] := by
              simpa [protocolErrorSpecStep, hdata, htype, hb, hp] using hspec.symm
            subst hres
            refine ⟨by simp [step, hdata, htype, hb, hp], ?_⟩
            simp [runLoop, step, hdata, htype, hb, hp]

/-- Witness for C5 on a malformed frame with succeeding replies. -/
theorem C5_witness :
    allSendsSucceed 0 = SendOutcome.ok ∧
    protocolErrorSpecStep emptyRegistry Payload.malformed
      = some (StepRes.continueReplied emptyRegistry [] msg_bad_json) ∧
    (step "alice" "lobby" 0 allSendsSucceed emptyRegistry Payload.malformed
       = StepRes.continueReplied emptyRegistry [] msg_bad_json ∧
     (runLoop "alice" "lobby" 0 emptyRegistry
         [Iter.mk (Recv.text Payload.malformed) allSendsSucceed]).exit
       = (runLoop "alice" "lobby" 0 emptyRegistry []).exit) :=
  ⟨rfl, rfl,
   C5_claim "alice" "lobby" 0 allSendsSucceed emptyRegistry Payload.malformed
     (StepRes.continueReplied emptyRegistry [] msg_bad_json) [] rfl rfl⟩

end WsChat
